import Mathlib

/-!
Verification of the InfiniteRealms turn-resolution engine.

The definitions below are a shallow embedding of the TypeScript source:
the turn resolver in the main application component (steps A through I of
handleChoice), the relationship helpers, the initial-relationship seeding in
handleStartGame, and the response cache of generateAdventureNode in
services/geminiService.ts.  JavaScript numbers only ever hold integer values
in this code, so they are modelled as Int; optional payload fields are
Option; JavaScript truthiness of the `x || d` idiom is modelled explicitly
by the js* helpers.
-/

/-- JavaScript `x || d` for a number `x`: `0` is falsy. -/
def jsNumOr (x d : Int) : Int :=
  if x = 0 then d else x

/-- JavaScript `x || d` for an optional number field: `undefined`, `null`
and `0` are falsy. -/
def jsOptNumOr (x : Option Int) (d : Int) : Int :=
  match x with
  | some v => if v = 0 then d else v
  | none => d

/-- JavaScript `x || d` for an optional string field: `undefined`, `null`
and the empty string are falsy. -/
def jsOptStrOr (x : Option String) (d : String) : String :=
  match x with
  | some s => if s = "" then d else s
  | none => d

/-- JavaScript `x || d` for a plain string: only `""` is falsy. -/
def jsStrOr (x d : String) : String :=
  if x = "" then d else x

/-- JavaScript truthiness of an optional string (used on `newNode.enemyName`
and `update.newStatus`). -/
def strTruthy (x : Option String) : Bool :=
  match x with
  | some s => !(s == "")
  | none => false

/-- Player stats record (types.ts, PlayerStats). -/
structure PlayerStats where
  strength : Int
  agility : Int
  intelligence : Int
  charisma : Int
deriving DecidableEq

/-- Optional stat/health deltas of a turn payload
(types.ts, `statsUpdate?: Partial<PlayerStats & \x7b health: number \x7d>`). -/
structure StatsUpdate where
  health : Option Int := none
  strength : Option Int := none
  agility : Option Int := none
  intelligence : Option Int := none
  charisma : Option Int := none
deriving DecidableEq

/-- A codex entry as stored in GameState (types.ts, CodexEntry);
the category union type is modelled as a string. -/
structure CodexEntry where
  id : String
  title : String
  category : String
  content : String
  turnUnlocked : Int
  isNew : Bool
deriving DecidableEq

/-- A proposed codex entry in a payload
(`Omit<CodexEntry, turnUnlocked | isNew>`). -/
structure ProposedCodexEntry where
  id : String
  title : String
  category : String
  content : String
deriving DecidableEq

/-- An NPC in the relationship roster (types.ts, NPC); the status union
type is modelled as a string. -/
structure NPC where
  id : String
  name : String
  description : String
  affinity : Int
  status : String
deriving DecidableEq

/-- One relationship-update instruction of a payload
(types.ts, AdventureNode.relationshipUpdates items). -/
structure RelationshipUpdate where
  npcId : String
  npcName : String
  npcDescription : Option String := none
  affinityChange : Int
  newStatus : Option String := none
deriving DecidableEq

/-- A world event (types.ts, WorldEvent). -/
structure WorldEvent where
  id : String
  type : String
  title : String
  description : String
deriving DecidableEq

/-- A world-state flag value (string, boolean or number). -/
inductive WorldValue where
  | str (v : String)
  | bool (v : Bool)
  | num (v : Int)
deriving DecidableEq

/-- The structured turn payload returned by the Narrative Generator
(types.ts, AdventureNode), after ingestion normalisation. -/
structure AdventureNode where
  storySegment : String := ""
  choices : List String := []
  inventory : List String := []
  currentQuest : String := ""
  locationName : String := ""
  summary : Option String := none
  statsUpdate : Option StatsUpdate := none
  worldUpdates : List (String × WorldValue) := []
  isCombat : Bool := false
  enemyName : Option String := none
  enemyHealth : Option Int := none
  enemyMaxHealth : Option Int := none
  enemyAbilities : Option (List String) := none
  xpAward : Option Int := none
  newCodexEntries : List ProposedCodexEntry := []
  relationshipUpdates : List RelationshipUpdate := []
  events : List WorldEvent := []
deriving DecidableEq

/-- The player persona (types.ts, PlayerPersona). -/
structure PlayerPersona where
  name : String := ""
  gender : String := ""
  appearance : String := ""
  backstory : String := ""
  personality : String := ""
deriving DecidableEq

/-- The game state (types.ts, GameState). -/
structure GameState where
  inventory : List String
  quest : String
  location : String
  genre : String
  health : Int
  maxHealth : Int
  turnCount : Int
  stats : PlayerStats
  worldState : List (String × WorldValue)
  inCombat : Bool
  enemyName : Option String
  enemyHealth : Option Int
  enemyMaxHealth : Option Int
  enemyAbilities : Option (List String)
  xp : Int
  level : Int
  skillPoints : Int
  unlockedSkills : List String
  codex : List CodexEntry
  relationships : List NPC
  persona : PlayerPersona
deriving DecidableEq

/-- The helper `calculateRelationshipStatus` of the main component: the fixed
affinity-to-status threshold table. -/
def calculateRelationshipStatus (affinity : Int) : String :=
  if affinity < 10 then "Enemy"
  else if affinity < 25 then "Stranger"
  else if affinity < 45 then "Acquaintance"
  else if affinity < 65 then "Friend"
  else if affinity < 85 then "Confidant"
  else "Close Friend"

/-- The five combat-related fields of GameState, grouped (step B of
handleChoice computes exactly these). -/
structure CombatFields where
  inCombat : Bool
  enemyName : Option String
  enemyHealth : Option Int
  enemyMaxHealth : Option Int
  enemyAbilities : Option (List String)
deriving DecidableEq

/-- Step B of handleChoice: combat and enemy state management. -/
def combatStep (s : GameState) (n : AdventureNode) : CombatFields :=
  if n.isCombat then
    if !s.inCombat || (strTruthy n.enemyName && !(n.enemyName == s.enemyName)) then
      let nextEnemyMaxHealth := jsOptNumOr n.enemyMaxHealth 100
      { inCombat := true
        enemyName := some (jsOptStrOr n.enemyName "Unknown Enemy")
        enemyMaxHealth := some nextEnemyMaxHealth
        enemyHealth := some (n.enemyHealth.getD nextEnemyMaxHealth)
        enemyAbilities := some (n.enemyAbilities.getD []) }
    else
      { inCombat := s.inCombat
        enemyName := s.enemyName
        enemyHealth := match n.enemyHealth with
          | some v => some v
          | none => s.enemyHealth
        enemyMaxHealth := s.enemyMaxHealth
        enemyAbilities := match n.enemyAbilities with
          | some l => if l.length > 0 then some l else s.enemyAbilities
          | none => s.enemyAbilities }
  else
    { inCombat := false, enemyName := none, enemyHealth := none
      enemyMaxHealth := none, enemyAbilities := none }

/-- The health delta of a payload: `newNode.statsUpdate?.health || 0`. -/
def healthDelta (n : AdventureNode) : Int :=
  jsOptNumOr (n.statsUpdate.bind (fun u => u.health)) 0

/-- Step C of handleChoice: health and damage resolution (cap at max,
then floor at 0). -/
def healthStep (health maxHealth delta : Int) : Int :=
  let newHealth := health + delta
  let newHealth := if newHealth > maxHealth then maxHealth else newHealth
  if newHealth < 0 then 0 else newHealth

/-- The result of step D of handleChoice. -/
structure LevelResult where
  xp : Int
  level : Int
  skillPoints : Int
  health : Int
  maxHealth : Int
  leveledUp : Bool
deriving DecidableEq

/-- The xp award of a payload: `newNode.xpAward || 0`. -/
def xpAwardOf (n : AdventureNode) : Int :=
  jsOptNumOr n.xpAward 0

/-- Step D of handleChoice: XP and leveling.  `newHealth` and
`newMaxHealth` are the values produced by step C (the code mutates them
further on a level-up). -/
def levelStep (stateXp stateLevel stateSkillPoints award newHealth newMaxHealth : Int) :
    LevelResult :=
  let currentXP := jsNumOr stateXp 0 + award
  let currentLevel := jsNumOr stateLevel 1
  let currentSkillPoints := jsNumOr stateSkillPoints 0
  let xpThreshold := currentLevel * 100
  if currentXP ≥ xpThreshold then
    { xp := currentXP - xpThreshold
      level := currentLevel + 1
      skillPoints := currentSkillPoints + 1
      health := newHealth + 10
      maxHealth := newMaxHealth + 10
      leveledUp := true }
  else
    { xp := currentXP
      level := currentLevel
      skillPoints := currentSkillPoints
      health := newHealth
      maxHealth := newMaxHealth
      leveledUp := false }

/-- Step E of handleChoice: codex updates.  Returns the admitted entries
and the next codex.  Deduplication tests each proposed entry against the
pre-existing codex only. -/
def codexStep (currentCodex : List CodexEntry) (turnCount : Int)
    (newEntries : List ProposedCodexEntry) : List CodexEntry × List CodexEntry :=
  let validNewEntries :=
    (newEntries.filter (fun entry =>
      !(currentCodex.any (fun c => c.id == entry.id || c.title == entry.title)))).map
      (fun entry =>
        { id := entry.id, title := entry.title, category := entry.category
          content := entry.content, turnUnlocked := turnCount + 1, isNew := true })
  (validNewEntries, currentCodex ++ validNewEntries)

/-- The sticky statuses of step F of handleChoice. -/
def stickyStatuses : List String :=
  ["Rival", "Crush", "Partner", "Nemesis", "Complicated", "Mentor", "Protege",
   "Ally", "Confidant"]

/-- The status-resolution logic for an existing NPC in step F: the value of
the local `newStatus` variable after the precedence if-block. -/
def statusAfterPrecedence (npc : NPC) (newAffinity : Int)
    (explicit : Option String) : String :=
  if strTruthy explicit then explicit.getD ""
  else
    if stickyStatuses.contains npc.status then
      if newAffinity < 10 && !(npc.status == "Nemesis") && !(npc.status == "Enemy") then
        "Enemy"
      else npc.status
    else calculateRelationshipStatus newAffinity

/-- One relationship-update instruction applied to the evolving roster
(step F of handleChoice); also reports whether the instruction counts as a
social success. -/
def applyRelationshipUpdate (rels : List NPC) (update : RelationshipUpdate) :
    List NPC × Bool :=
  match rels.findIdx? (fun r => r.id == update.npcId || r.name == update.npcName) with
  | some index =>
    let npc := rels.getD index ⟨"", "", "", 0, ""⟩
    let newAffinity := max 0 (min 100 (npc.affinity + update.affinityChange))
    let socialSuccess := update.affinityChange > 5
    let newStatus := statusAfterPrecedence npc newAffinity update.newStatus
    (rels.set index
      { npc with
        affinity := newAffinity
        status := jsStrOr newStatus (calculateRelationshipStatus newAffinity)
        description := jsOptStrOr update.npcDescription npc.description },
     socialSuccess)
  | none =>
    let newAffinity := max 0 (min 100 (50 + update.affinityChange))
    let socialSuccess := update.affinityChange > 0
    (rels ++ [{ id := update.npcId
                name := update.npcName
                description := jsOptStrOr update.npcDescription "Newly met"
                affinity := newAffinity
                status := jsOptStrOr update.newStatus
                  (calculateRelationshipStatus newAffinity) }],
     socialSuccess)

/-- Step F of handleChoice: all relationship updates of a turn, applied in
order to the evolving roster; the second component is the accumulated
socialSuccess flag. -/
def relationshipStep (rels : List NPC) (updates : List RelationshipUpdate) :
    List NPC × Bool :=
  updates.foldl
    (fun acc u =>
      let r := applyRelationshipUpdate acc.1 u
      (r.1, acc.2 || r.2))
    (rels, false)

/-- Initial-relationship seeding in handleStartGame: each instruction of the
opening payload becomes a roster entry with affinity `50 + affinityChange`
(note: the source does not clamp here). -/
def seedInitialRelationships (updates : List RelationshipUpdate) : List NPC :=
  updates.map (fun u =>
    { id := u.npcId
      name := u.npcName
      description := jsOptStrOr u.npcDescription "Unknown"
      affinity := 50 + u.affinityChange
      status := jsOptStrOr u.newStatus
        (calculateRelationshipStatus (50 + u.affinityChange)) })

/-- Shallow overlay of world flags: `\x7b ...old, ...new \x7d` on plain objects,
modelled on association lists (old keys keep their position, updated values
win; genuinely new keys are appended in order). -/
def overlayWorldState (old new : List (String × WorldValue)) :
    List (String × WorldValue) :=
  (old.map (fun p =>
    match new.find? (fun q => q.1 == p.1) with
    | some q => (p.1, q.2)
    | none => p)) ++
  new.filter (fun q => !(old.any (fun p => p.1 == q.1)))

/-- Steps A through I of handleChoice after a successful generator response:
the pure state transition from the previous game state and the turn payload
to the next game state. -/
def resolveTurn (s : GameState) (n : AdventureNode) : GameState :=
  let newStats : PlayerStats :=
    { strength := jsNumOr s.stats.strength 0 +
        jsOptNumOr (n.statsUpdate.bind (fun u => u.strength)) 0
      agility := jsNumOr s.stats.agility 0 +
        jsOptNumOr (n.statsUpdate.bind (fun u => u.agility)) 0
      intelligence := jsNumOr s.stats.intelligence 0 +
        jsOptNumOr (n.statsUpdate.bind (fun u => u.intelligence)) 0
      charisma := jsNumOr s.stats.charisma 0 +
        jsOptNumOr (n.statsUpdate.bind (fun u => u.charisma)) 0 }
  let cf := combatStep s n
  let newHealth := healthStep s.health s.maxHealth (healthDelta n)
  let lr := levelStep s.xp s.level s.skillPoints (xpAwardOf n) newHealth s.maxHealth
  let codexResult := codexStep s.codex s.turnCount n.newCodexEntries
  let relResult := relationshipStep s.relationships n.relationshipUpdates
  { s with
    inventory := n.inventory
    quest := n.currentQuest
    location := n.locationName
    turnCount := s.turnCount + 1
    stats := newStats
    health := lr.health
    maxHealth := lr.maxHealth
    worldState := overlayWorldState s.worldState n.worldUpdates
    inCombat := cf.inCombat
    enemyName := cf.enemyName
    enemyHealth := cf.enemyHealth
    enemyMaxHealth := cf.enemyMaxHealth
    enemyAbilities := cf.enemyAbilities
    xp := lr.xp
    level := lr.level
    skillPoints := lr.skillPoints
    codex := codexResult.2
    relationships := relResult.1 }

/-- The orchestrating handleChoice around the generator call: a failed call
or parse (the thrown error) reaches the catch block before any state
mutation, so the error case returns the prior state and history unchanged;
a successful response commits the resolved turn and appends the node to the
history. -/
def handleChoice (s : GameState) (history : List AdventureNode)
    (response : Except String AdventureNode) : GameState × List AdventureNode :=
  match response with
  | Except.error _ => (s, history)
  | Except.ok n => (resolveTurn s n, history ++ [n])

/-!
The response cache of generateAdventureNode (services/geminiService.ts):
a JavaScript Map keyed by the fingerprint string, iterated in insertion
order.  It is modelled as an association list in insertion order (the head
is the earliest-inserted entry); keys are unique because an insertion only
happens after a cache miss.
-/

/-- The response cache in insertion order (earliest-inserted entry first). -/
abbrev ResponseCache := List (String × AdventureNode)

/-- The constant `CACHE_LIMIT` of services/geminiService.ts. -/
def CACHE_LIMIT : Nat := 50

/-- Lookup (`responseCache.has` / `responseCache.get`) on the insertion-order model. -/
def cacheLookup (c : ResponseCache) (key : String) : Option AdventureNode :=
  (c.find? (fun p => p.1 == key)).map (fun p => p.2)

/-- The save-to-cache block of generateAdventureNode: when the map is at
capacity, `responseCache.keys().next().value` (the earliest-inserted key) is
deleted before the new entry is set. -/
def cacheInsert (c : ResponseCache) (key : String) (node : AdventureNode) :
    ResponseCache :=
  let c := if c.length ≥ CACHE_LIMIT then c.drop 1 else c
  c ++ [(key, node)]

/-- generateAdventureNode around the cache: on a hit the cached node is
returned and the generator is not invoked; on a miss the generator's output
`generated` is returned and inserted.  The Bool records whether the
generator was invoked. -/
def generateCached (c : ResponseCache) (key : String) (generated : AdventureNode) :
    AdventureNode × ResponseCache × Bool :=
  match cacheLookup c key with
  | some node => (node, c, false)
  | none => (generated, cacheInsert c key generated, true)

/-!  Concrete sample data, used by the witness theorems. -/

/-- A concrete freshly started game state (as handleStartGame produces it for
a payload with default stats and no codex or relationships). -/
def sampleState : GameState :=
  { inventory := ["Rusty Sword"]
    quest := "Find the village elder"
    location := "Village of Embers"
    genre := "High Fantasy"
    health := 80
    maxHealth := 100
    turnCount := 1
    stats := { strength := 5, agility := 5, intelligence := 5, charisma := 5 }
    worldState := []
    inCombat := false
    enemyName := none
    enemyHealth := none
    enemyMaxHealth := none
    enemyAbilities := none
    xp := 0
    level := 1
    skillPoints := 0
    unlockedSkills := []
    codex := []
    relationships := []
    persona := { name := "Traveler", gender := "Unknown", appearance := "Unknown"
                 backstory := "Unknown", personality := "Neutral" } }

/-- The sample state while engaged with a wolf. -/
def engagedState : GameState :=
  { sampleState with
    inCombat := true
    enemyName := some "Wolf"
    enemyHealth := some 40
    enemyMaxHealth := some 40
    enemyAbilities := some ["Bite"] }

/-- An otherwise empty payload. -/
def emptyNode : AdventureNode := {}

/-!  General facts about the JavaScript-idiom helpers and the resolver
steps, shared by the proofs below. -/

theorem jsNumOr_zero (x : Int) : jsNumOr x 0 = x := by
  unfold jsNumOr
  split <;> omega

theorem jsNumOr_of_ne (x d : Int) (h : x ≠ 0) : jsNumOr x d = x := by
  unfold jsNumOr
  simp [h]

theorem resolveTurn_level (s : GameState) (n : AdventureNode) :
    (resolveTurn s n).level =
      (levelStep s.xp s.level s.skillPoints (xpAwardOf n)
        (healthStep s.health s.maxHealth (healthDelta n)) s.maxHealth).level := rfl

theorem resolveTurn_xp (s : GameState) (n : AdventureNode) :
    (resolveTurn s n).xp =
      (levelStep s.xp s.level s.skillPoints (xpAwardOf n)
        (healthStep s.health s.maxHealth (healthDelta n)) s.maxHealth).xp := rfl

theorem resolveTurn_skillPoints (s : GameState) (n : AdventureNode) :
    (resolveTurn s n).skillPoints =
      (levelStep s.xp s.level s.skillPoints (xpAwardOf n)
        (healthStep s.health s.maxHealth (healthDelta n)) s.maxHealth).skillPoints := rfl

theorem resolveTurn_health (s : GameState) (n : AdventureNode) :
    (resolveTurn s n).health =
      (levelStep s.xp s.level s.skillPoints (xpAwardOf n)
        (healthStep s.health s.maxHealth (healthDelta n)) s.maxHealth).health := rfl

theorem resolveTurn_maxHealth (s : GameState) (n : AdventureNode) :
    (resolveTurn s n).maxHealth =
      (levelStep s.xp s.level s.skillPoints (xpAwardOf n)
        (healthStep s.health s.maxHealth (healthDelta n)) s.maxHealth).maxHealth := rfl

/-- Step D on a turn that crosses the threshold. -/
theorem levelStep_levelUp (xp level sp award h m : Int) (hl : level ≠ 0)
    (hxp : level * 100 ≤ xp + award) :
    levelStep xp level sp award h m =
      { xp := xp + award - level * 100, level := level + 1, skillPoints := sp + 1
        health := h + 10, maxHealth := m + 10, leveledUp := true } := by
  simp only [levelStep, jsNumOr_zero, jsNumOr_of_ne _ _ hl]
  rw [if_pos (by omega)]

/-- Step D on a turn that stays below the threshold. -/
theorem levelStep_noLevelUp (xp level sp award h m : Int) (hl : level ≠ 0)
    (hxp : xp + award < level * 100) :
    levelStep xp level sp award h m =
      { xp := xp + award, level := level, skillPoints := sp
        health := h, maxHealth := m, leveledUp := false } := by
  simp only [levelStep, jsNumOr_zero, jsNumOr_of_ne _ _ hl]
  rw [if_neg (by omega)]

/-- Step C always lands in the clamp of its inputs. -/
theorem healthStep_eq_clamp (health maxHealth delta : Int) (h0 : 0 ≤ health)
    (h1 : health ≤ maxHealth) :
    healthStep health maxHealth delta = max 0 (min (health + delta) maxHealth) := by
  simp only [healthStep]
  split_ifs <;> omega


/-!  Claim theorems. -/

/-- C1: for every game state with level L (the data-model invariant gives
`L ≥ 1`), xp X, skillPoints S, maxHealth M, and every turn payload whose xp
award A satisfies `X + A ≥ L * 100`, the turn resolver produces level
`L + 1`, xp `X + A - L * 100`, skillPoints `S + 1` and maxHealth `M + 10`. -/
theorem turn_resolver_levels_up (s : GameState) (n : AdventureNode)
    (hlevel : 1 ≤ s.level)
    (hxp : s.level * 100 ≤ s.xp + xpAwardOf n) :
    (resolveTurn s n).level = s.level + 1 ∧
    (resolveTurn s n).xp = s.xp + xpAwardOf n - s.level * 100 ∧
    (resolveTurn s n).skillPoints = s.skillPoints + 1 ∧
    (resolveTurn s n).maxHealth = s.maxHealth + 10 := by
  have hl : s.level ≠ 0 := by omega
  rw [resolveTurn_level, resolveTurn_xp, resolveTurn_skillPoints, resolveTurn_maxHealth,
    levelStep_levelUp _ _ _ _ _ _ hl hxp]
  exact ⟨rfl, rfl, rfl, rfl⟩

/-- Witness for C1: the sample state (level 1, xp 0) with an award of 120
reaches level 2 with xp 20, one skill point and maxHealth 110. -/
theorem turn_resolver_levels_up_witness :
    (resolveTurn sampleState { xpAward := some 120 }).level = sampleState.level + 1 ∧
    (resolveTurn sampleState { xpAward := some 120 }).xp =
      sampleState.xp + xpAwardOf { xpAward := some 120 } - sampleState.level * 100 ∧
    (resolveTurn sampleState { xpAward := some 120 }).skillPoints =
      sampleState.skillPoints + 1 ∧
    (resolveTurn sampleState { xpAward := some 120 }).maxHealth =
      sampleState.maxHealth + 10 :=
  turn_resolver_levels_up sampleState { xpAward := some 120 } (by decide) (by decide)

/-- C2: for every game state with `0 ≤ health ≤ maxHealth` and every turn
payload, the health step computes `clamp(health + delta, 0, maxHealth)` -
equal to maxHealth when `health + delta` exceeds it and 0 when negative -
and the state produced by the turn resolver again satisfies
`0 ≤ health ≤ maxHealth`, also on level-up turns where 10 is added to both
health and maxHealth after the clamp. -/
theorem health_clamp_invariant (s : GameState) (n : AdventureNode)
    (h0 : 0 ≤ s.health) (h1 : s.health ≤ s.maxHealth) :
    healthStep s.health s.maxHealth (healthDelta n) =
      max 0 (min (s.health + healthDelta n) s.maxHealth) ∧
    (s.maxHealth < s.health + healthDelta n →
      healthStep s.health s.maxHealth (healthDelta n) = s.maxHealth) ∧
    (s.health + healthDelta n < 0 →
      healthStep s.health s.maxHealth (healthDelta n) = 0) ∧
    0 ≤ (resolveTurn s n).health ∧
    (resolveTurn s n).health ≤ (resolveTurn s n).maxHealth := by
  have hclamp : 0 ≤ healthStep s.health s.maxHealth (healthDelta n) ∧
      healthStep s.health s.maxHealth (healthDelta n) ≤ s.maxHealth := by
    simp only [healthStep]
    constructor <;> (split_ifs <;> omega)
  refine ⟨healthStep_eq_clamp _ _ _ h0 h1, ?_, ?_, ?_, ?_⟩
  · intro h
    simp only [healthStep]
    split_ifs <;> omega
  · intro h
    simp only [healthStep]
    split_ifs <;> omega
  · rw [resolveTurn_health]
    simp only [levelStep]
    split <;> simp <;> omega
  · rw [resolveTurn_health, resolveTurn_maxHealth]
    simp only [levelStep]
    split <;> simp <;> omega

/-- Witness for C2: the sample state (health 80 of 100) hit for 200 damage
clamps to health 0 and resolves to a state inside its bounds. -/
theorem health_clamp_invariant_witness :
    healthStep sampleState.health sampleState.maxHealth
      (healthDelta { statsUpdate := some { health := some (-200) } }) =
      max 0 (min (sampleState.health +
        healthDelta { statsUpdate := some { health := some (-200) } })
        sampleState.maxHealth) ∧
    (sampleState.maxHealth < sampleState.health +
        healthDelta { statsUpdate := some { health := some (-200) } } →
      healthStep sampleState.health sampleState.maxHealth
        (healthDelta { statsUpdate := some { health := some (-200) } }) =
        sampleState.maxHealth) ∧
    (sampleState.health + healthDelta { statsUpdate := some { health := some (-200) } } < 0 →
      healthStep sampleState.health sampleState.maxHealth
        (healthDelta { statsUpdate := some { health := some (-200) } }) = 0) ∧
    0 ≤ (resolveTurn sampleState { statsUpdate := some { health := some (-200) } }).health ∧
    (resolveTurn sampleState { statsUpdate := some { health := some (-200) } }).health ≤
      (resolveTurn sampleState { statsUpdate := some { health := some (-200) } }).maxHealth :=
  health_clamp_invariant sampleState { statsUpdate := some { health := some (-200) } }
    (by decide) (by decide)

/-- C3 counterexample: from the freshly started state (level 1, xp 0, a
reachable state) an award of 350 leaves xp at 250 with level 2, and
`250 < 2 * 100` fails, so the resolved xp is not in `[0, L' * 100)`. -/
theorem xp_range_counterexample :
    (resolveTurn sampleState { xpAward := some 350 }).level = 2 ∧
    (resolveTurn sampleState { xpAward := some 350 }).xp = 250 ∧
    ¬((resolveTurn sampleState { xpAward := some 350 }).xp <
      (resolveTurn sampleState { xpAward := some 350 }).level * 100) := by
  decide

/-- C3 amended: the leveling step resolves at most one level per turn, so
the resulting xp is only guaranteed non-negative in general; it lies in
`[0, L' * 100)` when the total `X + A` stays below the sum of the current
and next thresholds (the award crosses at most one threshold). -/
theorem xp_in_range_single_threshold (s : GameState) (n : AdventureNode)
    (hxp0 : 0 ≤ s.xp) (hlevel : 1 ≤ s.level) (haward : 0 ≤ xpAwardOf n)
    (hbound : s.xp + xpAwardOf n < s.level * 100 + (s.level + 1) * 100) :
    0 ≤ (resolveTurn s n).xp ∧
    (resolveTurn s n).xp < (resolveTurn s n).level * 100 := by
  have hl : s.level ≠ 0 := by omega
  rw [resolveTurn_xp, resolveTurn_level]
  by_cases hcross : s.level * 100 ≤ s.xp + xpAwardOf n
  · rw [levelStep_levelUp _ _ _ _ _ _ hl hcross]
    constructor <;> simp <;> omega
  · rw [levelStep_noLevelUp _ _ _ _ _ _ hl (by omega)]
    constructor <;> simp <;> omega

/-- Witness for the amended C3: the sample state with an award of 150
levels once to level 2 and keeps xp 50, inside `[0, 200)`. -/
theorem xp_in_range_single_threshold_witness :
    0 ≤ (resolveTurn sampleState { xpAward := some 150 }).xp ∧
    (resolveTurn sampleState { xpAward := some 150 }).xp <
      (resolveTurn sampleState { xpAward := some 150 }).level * 100 :=
  xp_in_range_single_threshold sampleState { xpAward := some 150 }
    (by decide) (by decide) (by decide) (by decide)

/-!  Relationship-status facts (claim C4). -/

/-- Every sticky status is a non-empty string. -/
theorem sticky_ne_empty (st : String) (h : stickyStatuses.contains st = true) :
    st ≠ "" := by
  simp [stickyStatuses] at h
  rcases h with h | h | h | h | h | h | h | h | h <;> subst h <;> decide

/-- The threshold table never yields the empty string. -/
theorem calculateRelationshipStatus_ne_empty (a : Int) :
    calculateRelationshipStatus a ≠ "" := by
  unfold calculateRelationshipStatus
  split_ifs <;> decide

/-- The precedence block when the instruction supplies a non-empty status. -/
theorem statusAfterPrecedence_explicit (npc : NPC) (a : Int) (st : String)
    (hne : st ≠ "") :
    statusAfterPrecedence npc a (some st) = st := by
  simp [statusAfterPrecedence, strTruthy, hne]

/-- The precedence block when no status is supplied and the current status
is sticky. -/
theorem statusAfterPrecedence_sticky (npc : NPC) (a : Int) (explicit : Option String)
    (htr : strTruthy explicit = false)
    (hsticky : stickyStatuses.contains npc.status = true) :
    statusAfterPrecedence npc a explicit =
      (if a < 10 ∧ npc.status ≠ "Nemesis" ∧ npc.status ≠ "Enemy"
       then "Enemy" else npc.status) := by
  simp only [statusAfterPrecedence, htr, Bool.false_eq_true, if_false, hsticky, if_true]
  split_ifs with h1 h2 <;> simp_all

/-- The precedence block when no status is supplied and the current status
is not sticky. -/
theorem statusAfterPrecedence_math (npc : NPC) (a : Int) (explicit : Option String)
    (htr : strTruthy explicit = false)
    (hsticky : stickyStatuses.contains npc.status = false) :
    statusAfterPrecedence npc a explicit = calculateRelationshipStatus a := by
  simp only [statusAfterPrecedence, htr, Bool.false_eq_true, if_false, hsticky]

/-- C4: for an existing NPC, the resulting status follows the precedence:
an explicitly supplied newStatus is used verbatim; otherwise a sticky
current status is preserved, except that a clamped affinity below 10 with
a current status that is neither Nemesis nor Enemy forces Enemy; otherwise
the status is computed from the clamped affinity by the threshold table. -/
theorem relationship_status_precedence (npc : NPC) (u : RelationshipUpdate)
    (hmatch : u.npcId = npc.id) :
    (∀ st, u.newStatus = some st → st ≠ "" →
      (applyRelationshipUpdate [npc] u).1.map NPC.status = [st]) ∧
    ((u.newStatus = none ∨ u.newStatus = some "") →
      stickyStatuses.contains npc.status = true →
      (applyRelationshipUpdate [npc] u).1.map NPC.status =
        [if max 0 (min 100 (npc.affinity + u.affinityChange)) < 10 ∧
            npc.status ≠ "Nemesis" ∧ npc.status ≠ "Enemy"
         then "Enemy" else npc.status]) ∧
    ((u.newStatus = none ∨ u.newStatus = some "") →
      stickyStatuses.contains npc.status = false →
      (applyRelationshipUpdate [npc] u).1.map NPC.status =
        [calculateRelationshipStatus
          (max 0 (min 100 (npc.affinity + u.affinityChange)))]) := by
  have hfind : List.findIdx? (fun r => r.id == u.npcId || r.name == u.npcName) [npc] =
      some 0 := by
    simp [hmatch]
  refine ⟨?_, ?_, ?_⟩
  · intro st hst hne
    simp only [applyRelationshipUpdate, hfind]
    simp [hst, statusAfterPrecedence_explicit npc _ st hne, jsStrOr, hne]
  · intro hs hsticky
    have hne := sticky_ne_empty npc.status hsticky
    have htr : strTruthy u.newStatus = false := by
      rcases hs with h | h <;> simp [h, strTruthy]
    simp only [applyRelationshipUpdate, hfind]
    simp only [List.getD_cons_zero, List.set_cons_zero, List.map_cons, List.map_nil]
    rw [statusAfterPrecedence_sticky npc _ u.newStatus htr hsticky]
    congr 1
    split_ifs with h
    · simp [jsStrOr]
    · simp [jsStrOr, hne]
  · intro hs hsticky
    have htr : strTruthy u.newStatus = false := by
      rcases hs with h | h <;> simp [h, strTruthy]
    simp only [applyRelationshipUpdate, hfind]
    simp only [List.getD_cons_zero, List.set_cons_zero, List.map_cons, List.map_nil]
    rw [statusAfterPrecedence_math npc _ u.newStatus htr hsticky]
    simp [jsStrOr, calculateRelationshipStatus_ne_empty]

/-- Witness for C4: a Rival at affinity 60 losing 20 affinity with no
explicit status stays Rival (sticky branch, clamped affinity 40 ≥ 10). -/
theorem relationship_status_precedence_witness :
    (applyRelationshipUpdate
      [{ id := "n1", name := "Ann", description := "Old friend"
         affinity := 60, status := "Rival" }]
      { npcId := "n1", npcName := "Ann", affinityChange := -20 }).1.map NPC.status =
      ["Rival"] := by
  have h := (relationship_status_precedence
    { id := "n1", name := "Ann", description := "Old friend"
      affinity := 60, status := "Rival" }
    { npcId := "n1", npcName := "Ann", affinityChange := -20 }
    (by decide)).2.1 (Or.inl rfl) (by decide)
  simpa using h

/-!  Combat state machine facts (claims C5 and C10). -/

/-- Step B when the payload declares combat and either no encounter is
active or a differing enemy name is supplied: a new engagement starts. -/
theorem combatStep_newEngagement (s : GameState) (n : AdventureNode)
    (hc : n.isCombat = true)
    (hnew : s.inCombat = false ∨
      (strTruthy n.enemyName = true ∧ n.enemyName ≠ s.enemyName)) :
    combatStep s n =
      { inCombat := true
        enemyName := some (jsOptStrOr n.enemyName "Unknown Enemy")
        enemyHealth := some (n.enemyHealth.getD (jsOptNumOr n.enemyMaxHealth 100))
        enemyMaxHealth := some (jsOptNumOr n.enemyMaxHealth 100)
        enemyAbilities := some (n.enemyAbilities.getD []) } := by
  have hcond : (!s.inCombat || (strTruthy n.enemyName && !(n.enemyName == s.enemyName))) =
      true := by
    rcases hnew with h | ⟨h1, h2⟩
    · simp [h]
    · simp [h1, h2]
  simp only [combatStep, hc, if_true, hcond]

/-- Step B when the payload declares combat inside the same encounter:
stale-preserving update of health and abilities. -/
theorem combatStep_sameEncounter (s : GameState) (n : AdventureNode)
    (hc : n.isCombat = true) (hin : s.inCombat = true)
    (hsame : ¬(strTruthy n.enemyName = true ∧ n.enemyName ≠ s.enemyName)) :
    combatStep s n =
      { inCombat := s.inCombat
        enemyName := s.enemyName
        enemyHealth := match n.enemyHealth with
          | some v => some v
          | none => s.enemyHealth
        enemyMaxHealth := s.enemyMaxHealth
        enemyAbilities := match n.enemyAbilities with
          | some l => if l.length > 0 then some l else s.enemyAbilities
          | none => s.enemyAbilities } := by
  have hcond : (!s.inCombat || (strTruthy n.enemyName && !(n.enemyName == s.enemyName))) =
      false := by
    rw [hin]
    by_cases h1 : strTruthy n.enemyName = true
    · by_cases h2 : n.enemyName = s.enemyName
      · simp [h1, h2]
      · exact absurd ⟨h1, h2⟩ hsame
    · rw [Bool.not_eq_true] at h1
      simp [h1]
  simp only [combatStep, hc, if_true, hcond, Bool.false_eq_true, if_false]

/-- Step B when the payload declares no combat: all encounter fields are
cleared. -/
theorem combatStep_noCombat (s : GameState) (n : AdventureNode)
    (hc : n.isCombat = false) :
    combatStep s n =
      { inCombat := false, enemyName := none, enemyHealth := none
        enemyMaxHealth := none, enemyAbilities := none } := by
  simp [combatStep, hc]

/-- C5: the combat step follows the three-case state machine: a combat
payload with no prior encounter or a differing enemy name starts a new
engagement (health defaulting to its max when absent, abilities to empty);
a combat payload in the same encounter overwrites health only if supplied
and the ability list only if supplied non-empty; a non-combat payload
clears all encounter fields to null/false. -/
theorem combat_state_machine (s : GameState) (n : AdventureNode) :
    (n.isCombat = true →
      (s.inCombat = false ∨
        (strTruthy n.enemyName = true ∧ n.enemyName ≠ s.enemyName)) →
      combatStep s n =
        { inCombat := true
          enemyName := some (jsOptStrOr n.enemyName "Unknown Enemy")
          enemyHealth := some (n.enemyHealth.getD (jsOptNumOr n.enemyMaxHealth 100))
          enemyMaxHealth := some (jsOptNumOr n.enemyMaxHealth 100)
          enemyAbilities := some (n.enemyAbilities.getD []) }) ∧
    (n.isCombat = true → s.inCombat = true →
      ¬(strTruthy n.enemyName = true ∧ n.enemyName ≠ s.enemyName) →
      combatStep s n =
        { inCombat := s.inCombat
          enemyName := s.enemyName
          enemyHealth := match n.enemyHealth with
            | some v => some v
            | none => s.enemyHealth
          enemyMaxHealth := s.enemyMaxHealth
          enemyAbilities := match n.enemyAbilities with
            | some l => if l.length > 0 then some l else s.enemyAbilities
            | none => s.enemyAbilities }) ∧
    (n.isCombat = false →
      combatStep s n =
        { inCombat := false, enemyName := none, enemyHealth := none
          enemyMaxHealth := none, enemyAbilities := none }) :=
  ⟨fun hc h => combatStep_newEngagement s n hc h,
   fun hc hin hs => combatStep_sameEncounter s n hc hin hs,
   fun hc => combatStep_noCombat s n hc⟩

/-- A payload opening combat against a wolf. -/
def wolfNode : AdventureNode :=
  { isCombat := true, enemyName := some "Wolf", enemyHealth := some 40 }

/-- A same-encounter combat payload that restates only the enemy health. -/
def biteNode : AdventureNode :=
  { isCombat := true, enemyHealth := some 25 }

/-- A payload that declares no combat. -/
def calmNode : AdventureNode := { isCombat := false }

/-- Witness for C5: all three transitions at concrete states and
payloads. -/
theorem combat_state_machine_witness :
    combatStep sampleState wolfNode =
      { inCombat := true, enemyName := some "Wolf", enemyHealth := some 40
        enemyMaxHealth := some 100, enemyAbilities := some [] } ∧
    combatStep engagedState biteNode =
      { inCombat := true, enemyName := some "Wolf", enemyHealth := some 25
        enemyMaxHealth := some 40, enemyAbilities := some ["Bite"] } ∧
    combatStep engagedState calmNode =
      { inCombat := false, enemyName := none, enemyHealth := none
        enemyMaxHealth := none, enemyAbilities := none } := by
  refine ⟨?_, ?_, ?_⟩
  · have h := (combat_state_machine sampleState wolfNode).1 rfl (Or.inl rfl)
    simpa using h
  · have h := (combat_state_machine engagedState biteNode).2.1 rfl rfl (by decide)
    simpa using h
  · exact (combat_state_machine engagedState calmNode).2.2 rfl

/-- A payload opening combat with zero enemy health, zero enemy max health
and no enemy name. -/
def zeroEnemyNode : AdventureNode :=
  { isCombat := true, enemyHealth := some 0, enemyMaxHealth := some 0 }

/-- C10: on a turn that starts a new engagement, a payload enemyHealth of 0
is honored as 0 (presence is an undefined check), a payload enemyMaxHealth
of 0 is falsy and replaced by the default 100, and a missing enemy name
yields "Unknown Enemy". -/
theorem new_engagement_zero_defaults (s : GameState) (n : AdventureNode)
    (hc : n.isCombat = true)
    (hnew : s.inCombat = false ∨
      (strTruthy n.enemyName = true ∧ n.enemyName ≠ s.enemyName)) :
    (n.enemyHealth = some 0 → (combatStep s n).enemyHealth = some 0) ∧
    (n.enemyMaxHealth = some 0 → (combatStep s n).enemyMaxHealth = some 100) ∧
    (n.enemyName = none → (combatStep s n).enemyName = some "Unknown Enemy") := by
  rw [combatStep_newEngagement s n hc hnew]
  refine ⟨?_, ?_, ?_⟩
  · intro h
    simp [h]
  · intro h
    simp [h, jsOptNumOr]
  · intro h
    simp [h, jsOptStrOr]

/-- Witness for C10: the zero-health, zero-max, nameless combat payload
from the idle sample state. -/
theorem new_engagement_zero_defaults_witness :
    (combatStep sampleState zeroEnemyNode).enemyHealth = some 0 ∧
    (combatStep sampleState zeroEnemyNode).enemyMaxHealth = some 100 ∧
    (combatStep sampleState zeroEnemyNode).enemyName = some "Unknown Enemy" :=
  ⟨(new_engagement_zero_defaults sampleState zeroEnemyNode rfl (Or.inl rfl)).1 rfl,
   (new_engagement_zero_defaults sampleState zeroEnemyNode rfl (Or.inl rfl)).2.1 rfl,
   (new_engagement_zero_defaults sampleState zeroEnemyNode rfl (Or.inl rfl)).2.2 rfl⟩

/-!  Relationship affinity bounds (claim C6). -/

/-- An opening-payload relationship instruction with a large positive
affinity change. -/
def overAffinityUpdate : RelationshipUpdate :=
  { npcId := "n9", npcName := "Mara", affinityChange := 60 }

/-- C6 failing input: the initial-relationship seeding of handleStartGame
sets affinity to `50 + affinityChange` without clamping, so an opening
instruction with affinityChange 60 produces affinity 110, outside
`[0, 100]`. -/
theorem seed_affinity_unclamped :
    (seedInitialRelationships [overAffinityUpdate]).map NPC.affinity = [110] ∧
    ¬(∀ npc ∈ seedInitialRelationships [overAffinityUpdate],
        0 ≤ npc.affinity ∧ npc.affinity ≤ 100) := by
  decide

/-!  Codex ledger facts (claim C7). -/

/-- Entries that clash neither by id nor by exact title. -/
abbrev codexDistinct (a b : CodexEntry) : Prop := a.id ≠ b.id ∧ a.title ≠ b.title

/-- C7 counterexample: the dedup check runs only against the pre-existing
codex, so a payload proposing the same entry twice admits both copies and
the resulting codex is not unique by id (nor by title). -/
theorem codex_intra_batch_duplicates :
    ((codexStep [] 0
        [{ id := "c1", title := "The Old War", category := "Lore", content := "x" },
         { id := "c1", title := "The Old War", category := "Lore", content := "x" }]).2.map
      CodexEntry.id) = ["c1", "c1"] ∧
    ¬(((codexStep [] 0
        [{ id := "c1", title := "The Old War", category := "Lore", content := "x" },
         { id := "c1", title := "The Old War", category := "Lore", content := "x" }]).2.map
      CodexEntry.id).Nodup) := by
  decide

/-- C7 amended: a proposed entry is admitted only if no existing entry
shares its id or its exact title; admitted entries are stamped with the
resolved turn number and flagged newly-discovered; the codex is
append-only; and uniqueness by id and by exact title is preserved provided
the proposed batch itself contains no two entries sharing an id or a title
(the source checks proposals against the pre-existing codex only). -/
theorem codex_dedup_against_existing (currentCodex : List CodexEntry) (turnCount : Int)
    (proposed : List ProposedCodexEntry)
    (hold : currentCodex.Pairwise codexDistinct)
    (hbatch : proposed.Pairwise (fun a b => a.id ≠ b.id ∧ a.title ≠ b.title)) :
    (∀ e ∈ (codexStep currentCodex turnCount proposed).1,
      (∀ c ∈ currentCodex, c.id ≠ e.id ∧ c.title ≠ e.title) ∧
      e.turnUnlocked = turnCount + 1 ∧ e.isNew = true) ∧
    ((codexStep currentCodex turnCount proposed).2 =
      currentCodex ++ (codexStep currentCodex turnCount proposed).1) ∧
    (codexStep currentCodex turnCount proposed).2.Pairwise codexDistinct := by
  have hvalid : ∀ e ∈ (codexStep currentCodex turnCount proposed).1,
      (∀ c ∈ currentCodex, c.id ≠ e.id ∧ c.title ≠ e.title) ∧
      e.turnUnlocked = turnCount + 1 ∧ e.isNew = true := by
    intro e he
    simp only [codexStep, List.mem_map, List.mem_filter] at he
    obtain ⟨a, ⟨_, hp⟩, rfl⟩ := he
    refine ⟨?_, rfl, rfl⟩
    intro c hc
    simp only [Bool.not_eq_true', List.any_eq_false] at hp
    have h3 := hp c hc
    simp only [Bool.or_eq_true, beq_iff_eq, not_or] at h3
    exact ⟨h3.1, h3.2⟩
  refine ⟨hvalid, rfl, ?_⟩
  have h2 : (codexStep currentCodex turnCount proposed).2 =
      currentCodex ++ (codexStep currentCodex turnCount proposed).1 := rfl
  rw [h2, List.pairwise_append]
  refine ⟨hold, ?_, ?_⟩
  · simp only [codexStep]
    rw [List.pairwise_map]
    exact (hbatch.sublist (List.filter_sublist _)).imp (fun h => ⟨h.1, h.2⟩)
  · intro a ha b hb
    exact ((hvalid b hb).1 a ha)

/-- An entry already in the codex at turn 1. -/
def loreEntry : CodexEntry :=
  { id := "c1", title := "The Old War", category := "Lore"
    content := "An ancient conflict.", turnUnlocked := 1, isNew := false }

/-- A proposed entry distinct from the existing codex. -/
def newLoreEntry : ProposedCodexEntry :=
  { id := "c2", title := "The Ashen King", category := "Person"
    content := "A fallen ruler." }

/-- Witness for the amended C7 at a concrete codex and batch. -/
theorem codex_dedup_against_existing_witness :
    (∀ e ∈ (codexStep [loreEntry] 3 [newLoreEntry]).1,
      (∀ c ∈ [loreEntry], c.id ≠ e.id ∧ c.title ≠ e.title) ∧
      e.turnUnlocked = 3 + 1 ∧ e.isNew = true) ∧
    ((codexStep [loreEntry] 3 [newLoreEntry]).2 =
      [loreEntry] ++ (codexStep [loreEntry] 3 [newLoreEntry]).1) ∧
    (codexStep [loreEntry] 3 [newLoreEntry]).2.Pairwise codexDistinct :=
  codex_dedup_against_existing [loreEntry] 3 [newLoreEntry] (by decide) (by decide)

/-!  Response cache facts (claim C8). -/

/-- Inserting after a miss makes the key retrievable with the inserted
node. -/
theorem cacheLookup_insert_self (c : ResponseCache) (key : String)
    (node : AdventureNode) (h : cacheLookup c key = none) :
    cacheLookup (cacheInsert c key node) key = some node := by
  have hfind : c.find? (fun p => p.1 == key) = none := by
    simpa [cacheLookup] using h
  have hnone : (if c.length ≥ CACHE_LIMIT then c.drop 1 else c).find?
      (fun p => p.1 == key) = none := by
    rw [List.find?_eq_none] at hfind ⊢
    intro x hx
    apply hfind
    split at hx
    · exact List.mem_of_mem_drop hx
    · exact hx
  simp only [cacheLookup, cacheInsert]
  rw [List.find?_append, hnone]
  simp

/-- C8: a second generation call with the identical fingerprint returns the
node cached by the first call without invoking the generator; and when an
insertion happens at capacity (50), the earliest-inserted entry is evicted
(insertion order, not recency). -/
theorem cache_determinism_and_eviction (c : ResponseCache) (key : String)
    (g1 g2 : AdventureNode) :
    (generateCached (generateCached c key g1).2.1 key g2 =
      ((generateCached c key g1).1, (generateCached c key g1).2.1, false)) ∧
    (cacheLookup c key = none → CACHE_LIMIT ≤ c.length →
      (generateCached c key g1).2.1 = c.drop 1 ++ [(key, g1)] ∧
      (generateCached c key g1).2.2 = true) := by
  constructor
  · cases h : cacheLookup c key with
    | some node =>
      simp [generateCached, h]
    | none =>
      have h2 := cacheLookup_insert_self c key g1 h
      simp [generateCached, h, h2]
  · intro hnone hlen
    have hge : c.length ≥ CACHE_LIMIT := hlen
    simp [generateCached, hnone, cacheInsert, hge]

/-- A full cache of 50 insertion-ordered entries under an old key. -/
def fullCache : ResponseCache := List.replicate 50 ("old", emptyNode)

/-- Witness for C8: inserting a fresh key into the full 50-entry cache
invokes the generator and evicts the earliest-inserted entry. -/
theorem cache_determinism_and_eviction_witness :
    (generateCached fullCache "fresh" emptyNode).2.1 =
      fullCache.drop 1 ++ [("fresh", emptyNode)] ∧
    (generateCached fullCache "fresh" emptyNode).2.2 = true :=
  (cache_determinism_and_eviction fullCache "fresh" emptyNode emptyNode).2
    (by decide) (by decide)

/-!  Error propagation (claim C9). -/

/-- C9: when the generator call or the parse step fails, the turn is
abandoned: the game state and the history are returned unchanged; every
state mutation happens only on a successful response, where the resolver
runs and the node is appended to the history. -/
theorem failed_generation_preserves_state (s : GameState)
    (history : List AdventureNode) (e : String) :
    handleChoice s history (Except.error e) = (s, history) ∧
    (∀ n, handleChoice s history (Except.ok n) = (resolveTurn s n, history ++ [n])) :=
  ⟨rfl, fun _ => rfl⟩
